import Mathlib

/-!
Verification of the meme-generator orchestration core (`features/generate`
and `features/user_memes` in the backend): the streaming transport's
sentinel handling, the resilient database-operation wrapper, conversation
history summarization, transcript persistence, and the meme tool layer,
shallowly embedded from the Python source.
-/

set_option autoImplicit false

namespace MemeGen

/-! ## Streaming transport (features/generate/service.py, `chat_stream`) -/

/-- One wire frame of the streaming response: either an ordinary chat message
frame (role, content, timestamp), mirroring `ChatMessage`, or a
conversation-update control frame carrying conversation id, summary and
updated-at, mirroring `ConversationUpdateMessage` in
`features/generate/models.py`. -/
inductive Frame where
  | message (role content timestamp : String)
  | control (conversation_id summary updated_at : String)
deriving DecidableEq, Repr

/-- Python `str.split(sep, maxsplit)` over the character list of a string:
split on `sep` at most `maxsplit` times; once the budget is exhausted the
remainder stays one field. `acc` holds the current field's characters in
reverse. -/
def splitLimitAux (sep : Char) : List Char → Nat → List Char → List String
  | [], _, acc => [String.mk acc.reverse]
  | c :: cs, 0, acc => [String.mk (acc.reverse ++ c :: cs)]
  | c :: cs, n + 1, acc =>
    if c = sep then String.mk acc.reverse :: splitLimitAux sep cs n []
    else splitLimitAux sep cs (n + 1) (c :: acc)

/-- Python `s.split(sep, maxsplit)`. -/
def pySplit (sep : Char) (maxsplit : Nat) (s : String) : List String :=
  splitLimitAux sep s.data maxsplit []

/-- Python `s.startswith(p)`. -/
def pyStartsWith (s p : String) : Bool :=
  p.data.isPrefixOf s.data

/-- The reserved sentinel tag checked by the streamer
(`text_piece.startswith("CONVERSATION_UPDATE:")`). -/
def SENTINEL_TAG : String := "CONVERSATION_UPDATE:"

/-- Processing of one streamed chunk (`text_piece`) by the streamer in
`chat_stream` (service.py lines 240-271): a chunk starting with the sentinel
tag is split on `:` at most 3 times; with exactly four fields and a parseable
timestamp a control frame is emitted (`continue` skips the message frame);
any parse failure falls through to an ordinary model message frame carrying
the raw chunk. `parseIso` abstracts `datetime.fromisoformat`; `modelTs`
abstracts `result.timestamp()`. -/
def processChunk (parseIso : String → Option String) (modelTs : String)
    (chunk : String) : Frame :=
  if pyStartsWith chunk SENTINEL_TAG then
    match pySplit ':' 3 chunk with
    | [_, convId, summary, rest] =>
      match parseIso rest with
      | some t => Frame.control convId summary t
      | none => Frame.message "model" chunk modelTs
    | _ => Frame.message "model" chunk modelTs
  else Frame.message "model" chunk modelTs

/-- A chunk that the streamer recognises as a well-formed sentinel: it starts
with the sentinel tag, splits into exactly four fields, and its timestamp
field parses. -/
def isSentinelChunk (parseIso : String → Option String) (chunk : String) : Bool :=
  pyStartsWith chunk SENTINEL_TAG &&
    match pySplit ':' 3 chunk with
    | [_, _, _, rest] => (parseIso rest).isSome
    | _ => false

/-- Whether a frame is a control frame. -/
def Frame.isControl : Frame → Bool
  | .control .. => true
  | _ => false

/-- A sample timestamp parser used to instantiate the abstract
`datetime.fromisoformat` parameter on concrete inputs. -/
def parseIsoSample : String → Option String :=
  fun s => if s = "2024-01-01T00:00:00Z" then some s else none

/-! ## Resilient operation wrapper (features/generate/agent.py,
`safe_db_operation`, lines 945-964) -/

/-- Outcome of one invocation of the wrapped operation: success, an
`OperationalError` (transient, connection-level), or any other exception. -/
inductive DbOutcome (α : Type) where
  | ok (v : α)
  | transientErr (e : String)
  | fatalErr (e : String)
deriving DecidableEq, Repr

/-- Error carried out of the wrapper: the re-raised `OperationalError` after
retries are exhausted, or an immediately propagated other exception. -/
inductive DbError where
  | transient (e : String)
  | fatal (e : String)
deriving DecidableEq, Repr

/-- Observable result of a `safe_db_operation` call: the returned value or
propagated exception (`none` models Python's implicit `None` when
`max_retries = 0` and the loop body never runs), the sleeps performed between
attempts (in seconds), and the number of invocations of the operation. -/
structure DbRunResult (α : Type) where
  result : Option (Except DbError α)
  sleeps : List ℚ
  calls : Nat
deriving Repr

/-- The retry loop of `safe_db_operation`: `for attempt in range(max_retries)`,
returning `operation()`'s value on success; on `OperationalError`, if
`attempt < max_retries - 1` it sleeps `0.5 * (attempt + 1)` seconds and
retries, else re-raises; any other exception propagates at once. The
operation is modelled as a function of the 0-based attempt index. -/
def safeLoop {α : Type} (op : Nat → DbOutcome α) (max_retries : Nat) :
    Nat → Nat → DbRunResult α
  | _, 0 => ⟨none, [], 0⟩
  | attempt, remaining + 1 =>
    match op attempt with
    | .ok v => ⟨some (.ok v), [], 1⟩
    | .transientErr e =>
      if attempt < max_retries - 1 then
        let r := safeLoop op max_retries (attempt + 1) remaining
        ⟨r.result, (1 : ℚ) / 2 * ((attempt : ℚ) + 1) :: r.sleeps, r.calls + 1⟩
      else ⟨some (.error (.transient e)), [], 1⟩
    | .fatalErr e => ⟨some (.error (.fatal e)), [], 1⟩

/-- Embeds `safe_db_operation(operation, session, max_retries=3)` (agent.py lines
945-964). -/
def safe_db_operation {α : Type} (op : Nat → DbOutcome α)
    (max_retries : Nat := 3) : DbRunResult α :=
  safeLoop op max_retries 0 max_retries

/-! ## History summarization (features/generate/agent.py,
`summarize_old_messages`, lines 62-71) -/

/-- A transcript turn; the payload is opaque to the history manager. -/
structure ModelMessage where
  payload : String
deriving DecidableEq, Repr

/-- Embeds `summarize_old_messages(messages)`: if the transcript exceeds 15 turns,
run the summarize agent over the first 10 turns and return its new messages
followed by the last 5 turns; otherwise return the transcript unchanged.
`summarizer` abstracts `summarize_agent.run(...).new_messages()`. -/
def summarize_old_messages (summarizer : List ModelMessage → List ModelMessage)
    (messages : List ModelMessage) : List ModelMessage :=
  if messages.length > 15 then
    summarizer (messages.take 10) ++ messages.drop (messages.length - 5)
  else
    messages

/-! ## Streamer run trace (features/generate/service.py, `chat_stream`,
lines 189-325) -/

/-- An observable event of one streamer run: a frame yielded to the client,
or the post-stream persistence of the run's new transcript segment
(`store_message` on `result.new_messages_json()`). -/
inductive Event where
  | emit (f : Frame)
  | persist (segment : String)
deriving DecidableEq, Repr

/-- Whether an event is a frame emission. -/
def Event.isEmit : Event → Bool
  | .emit _ => true
  | _ => false

/-- How the agent's output stream ends: natural completion (all chunks
streamed, `segment` is the run's new transcript payload), a client
disconnect (`BrokenPipeError`/`ConnectionResetError`/`OSError`/
`CancelledError`/`httpx.HTTPError`) after some chunks were delivered, or any
other agent-stream exception (`moderation` selects the content-safety
wording). -/
inductive StreamOutcome where
  | completed (chunks : List String) (segment : String)
  | disconnected (delivered : List String)
  | failed (delivered : List String) (moderation : Bool)
deriving DecidableEq, Repr

/-- Outcome of one streamer run: the ordered events produced, and whether the
generator body re-raised an exception to its caller. -/
structure RunTrace where
  events : List Event
  raised : Bool
deriving DecidableEq, Repr

/-- The moderation-blocked user-facing message (service.py lines 291-296). -/
def moderationMsg : String :=
  "I'm sorry, but I can't create that meme as it was flagged by the content safety system. Please try a different caption or theme that doesn't contain potentially harmful content."

/-- The generic error user-facing message (service.py lines 297-302). -/
def genericErrorMsg : String :=
  "I'm sorry, but I encountered an error while creating your meme. Please try again with a different request."

/-- The `streamer()` generator of `chat_stream`: it first yields a user echo
frame for the caller's prompt, then one frame per streamed chunk (via
`processChunk`); on natural completion it persists the new transcript
segment via `store_message` after the stream; on a disconnect-class
exception it returns silently; on any other agent exception it yields a
user-facing error frame and returns. `userTs` abstracts
`datetime.now(timezone.utc)` taken at the echo. -/
def chat_stream (parseIso : String → Option String)
    (prompt userTs modelTs : String) (outcome : StreamOutcome) : RunTrace :=
  let echo := Event.emit (Frame.message "user" prompt userTs)
  match outcome with
  | .completed chunks segment =>
    ⟨echo :: (chunks.map fun c => Event.emit (processChunk parseIso modelTs c))
        ++ [Event.persist segment], false⟩
  | .disconnected delivered =>
    ⟨echo :: (delivered.map fun c => Event.emit (processChunk parseIso modelTs c)), false⟩
  | .failed delivered moderation =>
    ⟨echo :: (delivered.map fun c => Event.emit (processChunk parseIso modelTs c))
        ++ [Event.emit (Frame.message "model"
              (if moderation then moderationMsg else genericErrorMsg) modelTs)], false⟩

/-! ## History assembly for the model call (features/generate/service.py,
lines 207-238) -/

/-- What the streamer passes as `message_history`, plus how many times the
history was trimmed via `summarize_old_messages` on the way. -/
structure HistoryAssembly where
  history : List ModelMessage
  trimApplications : Nat
deriving DecidableEq, Repr

/-- History assembly in `chat_stream` (service.py lines 207-217): the stored
message rows of the conversation are concatenated, in order, into `history`,
which is passed directly to `manager_agent.run_stream` (line 232-237);
`summarize_old_messages` is never invoked on this path, so the trim count
is zero. -/
def assembleStreamHistory (rows : List (List ModelMessage)) : HistoryAssembly :=
  ⟨rows.flatten, 0⟩

/-! ## Meme persistence model (features/user_memes/service.py and
entities/user_memes.py) -/

/-- A row of the `user_memes` table (`entities/user_memes.py`). `created_at`
is modelled as a monotone clock reading. -/
structure UserMeme where
  id : String
  conversation_id : String
  user_id : String
  image_url : String
  openai_response_id : String
  is_favorite : Bool
  created_at : Nat
deriving DecidableEq, Repr

/-- Embeds `UserMemeCreate` (features/user_memes/schema.py). -/
structure UserMemeCreate where
  conversation_id : String
  image_url : String
  openai_response_id : String
  is_favorite : Bool := false
deriving DecidableEq, Repr

/-- Embeds `UserMemeUpdate` (features/user_memes/schema.py): `none` models a field
absent from the payload (`exclude_unset=True` skips it). -/
structure UserMemeUpdate where
  is_favorite : Option Bool := none
deriving DecidableEq, Repr

/-- The `WHERE` clause of `read_latest_conversation_meme`: row belongs to the
conversation and to the current user. -/
def memeMatches (conversation_id user_id : String) (m : UserMeme) : Bool :=
  m.conversation_id == conversation_id && m.user_id == user_id

/-- One comparison step of the newest-row selection: keep whichever of the
running candidate and the next row has the strictly greater `created_at`. -/
def latestStep (acc : Option UserMeme) (m : UserMeme) : Option UserMeme :=
  match acc with
  | none => some m
  | some b => if b.created_at < m.created_at then some m else some b

/-- Selection of the newest row by `created_at` (the `ORDER BY created_at
DESC` / `.first()` of the query); on equal timestamps the earlier-inserted
row is kept, fixing the order that SQL leaves unspecified. -/
def pickLatest (acc : Option UserMeme) (l : List UserMeme) : Option UserMeme :=
  l.foldl latestStep acc

/-- Embeds `read_latest_conversation_meme(conversation_id, session, current_user)`
(features/user_memes/service.py lines 119-161): newest matching meme, or
`none` when the conversation has no memes yet. -/
def read_latest_conversation_meme (db : List UserMeme)
    (conversation_id user_id : String) : Option UserMeme :=
  pickLatest none (db.filter (memeMatches conversation_id user_id))

/-- Embeds `create_user_meme(data, session, current_user)` (service.py lines
31-76): rejects an empty image URL with HTTP 400, else appends a new row
owned by the current user. `fresh_id` and `now` model the generated primary
key and `datetime.now(timezone.utc)`. -/
def create_user_meme (db : List UserMeme) (data : UserMemeCreate)
    (user_id fresh_id : String) (now : Nat) :
    Except Nat (List UserMeme × UserMeme) :=
  if data.image_url = "" then .error 400
  else
    let m : UserMeme :=
      ⟨fresh_id, data.conversation_id, user_id, data.image_url,
        data.openai_response_id, data.is_favorite, now⟩
    .ok (db ++ [m], m)

/-- Applying a `UserMemeUpdate` payload to a row: only fields present in the
payload are set (`model_dump(exclude_unset=True)` then `setattr`). -/
def applyMemeUpdate (u : UserMemeUpdate) (m : UserMeme) : UserMeme :=
  match u.is_favorite with
  | none => m
  | some b => { m with is_favorite := b }

/-- The `.first()` row matched by id and owner is updated in place; later
rows are untouched. -/
def updateFirstMeme (meme_id user_id : String) (u : UserMemeUpdate) :
    List UserMeme → Option (List UserMeme × UserMeme)
  | [] => none
  | m :: rest =>
    if m.id == meme_id && m.user_id == user_id then
      some (applyMemeUpdate u m :: rest, applyMemeUpdate u m)
    else
      (updateFirstMeme meme_id user_id u rest).map fun p => (m :: p.1, p.2)

/-- Embeds `update_user_meme(meme_id, data, session, current_user)` (service.py
lines 164-213): HTTP 404 when no owned row matches, else the partial update
applied to the matched row. -/
def update_user_meme (db : List UserMeme) (meme_id user_id : String)
    (u : UserMemeUpdate) : Except Nat (List UserMeme × UserMeme) :=
  match updateFirstMeme meme_id user_id u db with
  | none => .error 404
  | some (db', m) => .ok (db', m)

/-! ## Meme generation tools (features/generate/agent.py) -/

/-- Embeds `ImageResult` (features/generate/schema.py lines 95-110). -/
structure ImageResult where
  image_id : String
  url : String
  response_id : String
deriving DecidableEq, Repr

/-- Error channel of a tool: a `ModelRetry` reported back to the model, a
propagated `HTTPException`, or a `ValueError`. -/
inductive ToolError where
  | modelRetry (msg : String)
  | http (code : Nat) (detail : String)
  | valueError (msg : String)
deriving DecidableEq, Repr

/-- Outcome of a `ctx.deps.client.responses.create` call: a response with id
`id` and possibly empty `output`, a `BadRequestError` (with whether its text
matches the moderation keywords), or any other exception. -/
inductive ProviderResp where
  | ok (id : String) (hasOutput : Bool)
  | badRequest (moderation : Bool) (msg : String)
  | otherErr (msg : String)
deriving DecidableEq, Repr

/-- Outcome of a Gemini `send_message` call: a response with image parts, a
response with no candidates/parts, or an exception. -/
inductive GeminiResp where
  | ok
  | empty
  | err (moderation : Bool) (msg : String)
deriving DecidableEq, Repr

/-- The stale-reference message of the Gemini modification path
(agent.py lines 560-563). -/
def staleMsg (rid : String) : String :=
  "Could not find previous image with response_id: " ++ rid

/-- Embeds `fetch_previous_image_id(ctx)` (agent.py lines 850-873): reads the
newest meme of the conversation through `safe_db_operation`; raises
`ModelRetry` when the conversation has no meme yet or the stored handle is
empty, else returns the stored `openai_response_id`. The wrapped read is a
pure query here, so the wrapper passes its value through. -/
def fetch_previous_image_id (db : List UserMeme)
    (conversation_id user_id : String) : Except ToolError String :=
  match read_latest_conversation_meme db conversation_id user_id with
  | none => .error (.modelRetry "No previous meme found in this conversation.")
  | some m =>
    if m.openai_response_id = "" then
      .error (.modelRetry "Previous meme does not have a valid response ID.")
    else
      .ok m.openai_response_id

/-- Embeds `_generate_image_openai(ctx, text_boxes, context)` success/error shape
(agent.py lines 252-319): provider errors become `ModelRetry`; an empty
output becomes `ModelRetry`; on success the image is uploaded (yielding
`upload_url`) and a `UserMeme` with the provider response id is persisted via
`safe_db_operation`, returning an `ImageResult` with that id. -/
def generate_image_openai (db : List UserMeme) (providerResp : ProviderResp)
    (upload_url conversation_id user_id fresh_id : String) (now : Nat) :
    Except ToolError (List UserMeme × ImageResult) :=
  match providerResp with
  | .badRequest moderation msg =>
    .error (.modelRetry (if moderation then
      "I'm sorry, but I can't create that meme as it was flagged by the content safety system. Please try a different caption or theme."
    else "Image generation failed: " ++ msg ++ ". Please try again."))
  | .otherErr msg =>
    .error (.modelRetry ("Image generation failed: " ++ msg ++ ". Please try again."))
  | .ok rid hasOutput =>
    if !hasOutput then .error (.modelRetry "No image generated. Please try again.")
    else
      match create_user_meme db ⟨conversation_id, upload_url, rid, false⟩
          user_id fresh_id now with
      | .error code => .error (.http code "Image URL is required")
      | .ok (db', meme) => .ok (db', ⟨meme.id, upload_url, rid⟩)

/-- Embeds `_modify_image_openai(ctx, modification_request, response_id)` (agent.py
lines 471-534): the supplied handle is passed straight to the provider as
`previous_response_id`; no staleness check against the conversation's memes
is performed. On success a new `UserMeme` with the new response id is
persisted. -/
def modify_image_openai (db : List UserMeme) (response_id : String)
    (providerResp : ProviderResp)
    (upload_url conversation_id user_id fresh_id : String) (now : Nat) :
    Except ToolError (List UserMeme × ImageResult) :=
  match providerResp with
  | .badRequest moderation msg =>
    .error (.modelRetry (if moderation then
      "I'm sorry, but I can't modify that image as the request was flagged by the content safety system."
    else "Image modification failed: " ++ msg ++ ". Please try again."))
  | .otherErr msg =>
    .error (.modelRetry ("Image modification failed: " ++ msg ++ ". Please try again."))
  | .ok newRid hasOutput =>
    if !hasOutput then .error (.modelRetry "No image generated. Please try again.")
    else
      match create_user_meme db ⟨conversation_id, upload_url, newRid, false⟩
          user_id fresh_id now with
      | .error code => .error (.http code "Image URL is required")
      | .ok (db', meme) => .ok (db', ⟨meme.id, upload_url, newRid⟩)

/-- Embeds `_modify_image_gemini(ctx, modification_request, response_id)` (agent.py
lines 537-662): first the newest meme of the conversation is read; if there
is none, or its stored handle differs from the supplied `response_id`, a
stale-reference `ModelRetry` is raised; otherwise the stored image is
re-sent to the provider and, on success, a new `UserMeme` with a fresh
`gemini_<uuid>` handle (`gemini_fresh_id`) is persisted. -/
def modify_image_gemini (db : List UserMeme) (response_id : String)
    (gresp : GeminiResp)
    (upload_url gemini_fresh_id conversation_id user_id fresh_id : String)
    (now : Nat) : Except ToolError (List UserMeme × ImageResult) :=
  match read_latest_conversation_meme db conversation_id user_id with
  | none => .error (.modelRetry (staleMsg response_id))
  | some latest =>
    if latest.openai_response_id ≠ response_id then
      .error (.modelRetry (staleMsg response_id))
    else
      match gresp with
      | .err moderation msg =>
        .error (.modelRetry (if moderation then
          "I'm sorry, but I can't modify that image as the request was flagged by the content safety system."
        else "Image modification failed: " ++ msg ++ ". Please try again."))
      | .empty => .error (.modelRetry "No modified image generated. Please try again.")
      | .ok =>
        match create_user_meme db ⟨conversation_id, upload_url, gemini_fresh_id, false⟩
            user_id fresh_id now with
        | .error code => .error (.http code "Image URL is required")
        | .ok (db', meme) => .ok (db', ⟨meme.id, upload_url, gemini_fresh_id⟩)

/-- Input to the unified `modify_image` tool dispatch, bundling whichever
provider response would be observed. -/
structure ModifyCallEnv where
  providerResp : ProviderResp
  gresp : GeminiResp
  upload_url : String
  gemini_fresh_id : String
  fresh_id : String
  now : Nat
deriving DecidableEq, Repr

/-- Embeds `modify_image(ctx, modification_request, response_id)` (agent.py lines
446-468): routes on the provider part of `ctx.deps.image_agent_model`
(`provider, _ = image_agent_model.split(":")`, lowercased); an unknown
provider raises `ValueError`. -/
def modify_image (provider : String) (db : List UserMeme)
    (response_id : String) (env : ModifyCallEnv)
    (conversation_id user_id : String) :
    Except ToolError (List UserMeme × ImageResult) :=
  if provider = "openai" then
    modify_image_openai db response_id env.providerResp env.upload_url
      conversation_id user_id env.fresh_id env.now
  else if provider = "gemini" then
    modify_image_gemini db response_id env.gresp env.upload_url
      env.gemini_fresh_id conversation_id user_id env.fresh_id env.now
  else
    .error (.valueError ("Unsupported image modification provider: " ++ provider))

/-- Embeds `favourite_meme_in_db(ctx)` (agent.py lines 814-847): reads the newest
meme of the conversation; when there is none, or its handle is empty, the
inner HTTP 404 is caught and its detail returned as the tool's message;
otherwise the row's `is_favorite` is set through `update_user_meme` and a
confirmation message returned. A non-404 `HTTPException` would become a
`ModelRetry`. The pair carries the resulting table and the tool's reply. -/
def favourite_meme_in_db (db : List UserMeme)
    (conversation_id user_id : String) :
    Except ToolError (List UserMeme × String) :=
  match read_latest_conversation_meme db conversation_id user_id with
  | none => .ok (db, "No previous meme found to favourite")
  | some m =>
    if m.openai_response_id = "" then
      .ok (db, "No previous meme found to favourite")
    else
      match update_user_meme db m.id user_id ⟨some true⟩ with
      | .error 404 => .ok (db, "UserMeme " ++ m.id ++ " not found")
      | .error code => .error (.modelRetry ("Error favouriting meme: " ++ toString code))
      | .ok (db', _) => .ok (db', "Marked meme " ++ m.id ++ " as favourite.")

/-! ## Caption generation tool (features/generate/agent.py,
`meme_theme_factory`, lines 709-716, and features/generate/schema.py,
`MemeCaptionAndContext`, lines 77-92) -/

/-- Embeds `MemeCaptionAndContext`: one caption variant, a mapping of text-box keys
to caption strings plus an optional visual-context string. -/
structure MemeCaptionAndContext where
  text_boxes : List (String × String)
  context : Option String
deriving DecidableEq, Repr

/-- The number of `{text_boxes, context}` caption variants carried by one
`MemeCaptionAndContext` value: such a value is a single variant. -/
def MemeCaptionAndContext.variantCount (_ : MemeCaptionAndContext) : Nat := 1

/-- Embeds `meme_theme_factory(ctx, keywords, image_context)` (agent.py lines
709-716): runs the caption generation agent once on the prompt
`"Themes: <keywords joined by comma>; Context: <image_context>"` and returns
its single structured output. `agentRun` abstracts
`meme_theme_generation_agent.run(...).output`. -/
def meme_theme_factory (agentRun : String → MemeCaptionAndContext)
    (keywords : List String) (image_context : String) : MemeCaptionAndContext :=
  agentRun ("Themes: " ++ String.intercalate ", " keywords ++ "; Context: " ++ image_context)

/-! ## Sample data for concrete instantiations -/

/-- A sample summarizer output, standing in for the summarize agent's new
messages on one concrete input. -/
def sampleSummarizer : List ModelMessage → List ModelMessage :=
  fun _ => [⟨"summary"⟩]

/-- A 16-turn transcript. -/
def sampleTranscript : List ModelMessage :=
  (List.range 16).map fun i => ⟨"m" ++ toString i⟩

/-- A stored 16-message row for the history-assembly instantiation. -/
def longRow : List ModelMessage :=
  (List.range 16).map fun i => ⟨"h" ++ toString i⟩

/-- A sample caption-agent output, standing in for
`meme_theme_generation_agent.run(...).output` on one concrete input. -/
def sampleCaptionAgent : String → MemeCaptionAndContext :=
  fun _ => ⟨[("text_box_1", "top text"), ("text_box_2", "bottom text")], some "scene"⟩

/-- An operation raising a transient error on its first two invocations and
succeeding on the third. -/
def fatigueOp : Nat → DbOutcome Nat :=
  fun n => if n < 2 then .transientErr "db down" else .ok 42

/-- An operation raising a transient error on every invocation. -/
def alwaysFailOp : Nat → DbOutcome Nat :=
  fun _ => .transientErr "db down"

/-- An operation raising a non-transient error on its first invocation. -/
def fatalOp : Nat → DbOutcome Nat :=
  fun _ => .fatalErr "constraint violation"

/-- A conversation with no memes yet. -/
def emptyMemeDb : List UserMeme := []

/-- A conversation holding two memes: an older one with handle `resp_old`
and the most recent one with handle `resp_new`. -/
def staleDb : List UserMeme :=
  [⟨"m1", "c1", "u1", "urlA", "resp_old", false, 1⟩,
    ⟨"m2", "c1", "u1", "urlB", "resp_new", false, 2⟩]

/-- A sample environment for one modify-image call: the provider accepts the
request and returns a fresh response. -/
def sampleModifyEnv : ModifyCallEnv :=
  ⟨.ok "resp_v3" true, .ok, "urlC", "gemini_abc", "m3", 3⟩

/-! # Theorems -/

/-- Rebuilding a string from its character list is the identity. -/
theorem string_mk_data (s : String) : String.mk s.data = s := by
  cases s
  rfl

/-- String append concatenates the character lists. -/
theorem data_append (s t : String) : (s ++ t).data = s.data ++ t.data := by
  cases s
  cases t
  rfl

/-- A list is a prefix of itself followed by anything. -/
theorem isPrefixOf_append_self (l m : List Char) : l.isPrefixOf (l ++ m) = true := by
  induction l with
  | nil => simp [List.isPrefixOf]
  | cons c cs ih => simp [List.isPrefixOf, ih]

/-- With no split budget left, the remainder is one whole field. -/
theorem splitLimitAux_zero (sep : Char) (l acc : List Char) :
    splitLimitAux sep l 0 acc = [String.mk (acc.reverse ++ l)] := by
  cases l with
  | nil => simp [splitLimitAux]
  | cons c cs => rfl

/-- Splitting a separator-free segment followed by a separator peels off one
field. -/
theorem splitLimitAux_sepFree (sep : Char) (l rest : List Char) (n : Nat)
    (acc : List Char) (h : ∀ c ∈ l, c ≠ sep) :
    splitLimitAux sep (l ++ sep :: rest) (n + 1) acc
      = String.mk (acc.reverse ++ l) :: splitLimitAux sep rest n [] := by
  induction l generalizing acc with
  | nil => simp [splitLimitAux]
  | cons c cs ih =>
    have hc : c ≠ sep := h c (by simp)
    have hcs : ∀ x ∈ cs, x ≠ sep := fun x hx => h x (by simp [hx])
    simp only [List.cons_append, splitLimitAux, if_neg hc, List.append_eq]
    rw [ih _ hcs]
    simp

/-- A chunk assembled from the sentinel tag, a colon-free conversation id, a
colon-free summary and a timestamp splits on `:` with maxsplit 3 into
exactly those four fields. -/
theorem pySplit_sentinel (cid summ ts : String)
    (hcid : ':' ∉ cid.data) (hsumm : ':' ∉ summ.data) :
    pySplit ':' 3 (SENTINEL_TAG ++ cid ++ ":" ++ summ ++ ":" ++ ts)
      = ["CONVERSATION_UPDATE", cid, summ, ts] := by
  have hdata : (SENTINEL_TAG ++ cid ++ ":" ++ summ ++ ":" ++ ts).data
      = ("CONVERSATION_UPDATE" : String).data
          ++ ':' :: (cid.data ++ ':' :: (summ.data ++ ':' :: ts.data)) := by
    have htag : SENTINEL_TAG.data
        = ("CONVERSATION_UPDATE" : String).data ++ [':'] := by decide
    have hcolon : (":" : String).data = [':'] := by decide
    simp [data_append, htag, hcolon]
  have hcu : ∀ c ∈ ("CONVERSATION_UPDATE" : String).data, c ≠ ':' := by decide
  have hcid' : ∀ c ∈ cid.data, c ≠ ':' := fun c hc he => hcid (he ▸ hc)
  have hsumm' : ∀ c ∈ summ.data, c ≠ ':' := fun c hc he => hsumm (he ▸ hc)
  unfold pySplit
  rw [hdata]
  rw [show (3 : Nat) = 2 + 1 from rfl]
  rw [splitLimitAux_sepFree ':' _ _ 2 [] hcu]
  rw [show (2 : Nat) = 1 + 1 from rfl]
  rw [splitLimitAux_sepFree ':' _ _ 1 [] hcid']
  rw [show (1 : Nat) = 0 + 1 from rfl]
  rw [splitLimitAux_sepFree ':' _ _ 0 [] hsumm']
  rw [splitLimitAux_zero]
  simp [string_mk_data]

/-- A chunk assembled from the sentinel tag and a payload starts with the
sentinel tag. -/
theorem pyStartsWith_sentinel (cid summ ts : String) :
    pyStartsWith (SENTINEL_TAG ++ cid ++ ":" ++ summ ++ ":" ++ ts) SENTINEL_TAG
      = true := by
  unfold pyStartsWith
  have : (SENTINEL_TAG ++ cid ++ ":" ++ summ ++ ":" ++ ts).data
      = SENTINEL_TAG.data
          ++ (cid.data ++ ((":" : String).data
            ++ (summ.data ++ ((":" : String).data ++ ts.data)))) := by
    simp [data_append]
  rw [this]
  exact isPrefixOf_append_self _ _

/-- A streamed chunk yields a control frame exactly when the streamer
recognises it as a well-formed sentinel. -/
theorem isControl_processChunk (parseIso : String → Option String)
    (modelTs chunk : String) :
    (processChunk parseIso modelTs chunk).isControl
      = isSentinelChunk parseIso chunk := by
  cases h : pyStartsWith chunk SENTINEL_TAG with
  | false => simp [processChunk, isSentinelChunk, h, Frame.isControl]
  | true =>
    rcases hs : pySplit ':' 3 chunk with _ | ⟨x1, _ | ⟨x2, _ | ⟨x3, _ | ⟨x4, _ | ⟨x5, l5⟩⟩⟩⟩⟩
    · simp [processChunk, isSentinelChunk, h, hs, Frame.isControl]
    · simp [processChunk, isSentinelChunk, h, hs, Frame.isControl]
    · simp [processChunk, isSentinelChunk, h, hs, Frame.isControl]
    · simp [processChunk, isSentinelChunk, h, hs, Frame.isControl]
    · cases hp : parseIso x4 <;>
        simp [processChunk, isSentinelChunk, h, hs, hp, Frame.isControl]
    · simp [processChunk, isSentinelChunk, h, hs, Frame.isControl]

/-- C1: a chunk beginning with a well-formed sentinel
`CONVERSATION_UPDATE:<conversation_id>:<summary>:<updated_at>` (colon-free id
and summary, parseable timestamp) is turned into exactly the control frame
carrying that conversation id, summary and parsed updated-at; a chunk the
streamer recognises as a sentinel never becomes a message frame (so the raw
sentinel text reaches no message frame); a chunk not beginning with the
sentinel tag is forwarded as an ordinary model message frame carrying the
chunk verbatim; and over any run the number of control frames emitted equals
the number of detected sentinel chunks — one each, no duplication, no loss. -/
theorem sentinel_control_frame_emission (parseIso : String → Option String)
    (modelTs : String) :
    (∀ convId summary ts t, ':' ∉ convId.data → ':' ∉ summary.data →
      parseIso ts = some t →
      processChunk parseIso modelTs
          (SENTINEL_TAG ++ convId ++ ":" ++ summary ++ ":" ++ ts)
        = Frame.control convId summary t)
    ∧ (∀ chunk, isSentinelChunk parseIso chunk = true →
        ∀ role content frameTs,
          processChunk parseIso modelTs chunk ≠ Frame.message role content frameTs)
    ∧ (∀ chunk, pyStartsWith chunk SENTINEL_TAG = false →
        processChunk parseIso modelTs chunk = Frame.message "model" chunk modelTs)
    ∧ (∀ chunks : List String,
        (chunks.map (processChunk parseIso modelTs)).countP Frame.isControl
          = chunks.countP (isSentinelChunk parseIso)) := by
  refine ⟨?_, ?_, ?_, ?_⟩
  · intro convId summary ts t hcid hsumm hparse
    have h1 := pyStartsWith_sentinel convId summary ts
    have h2 := pySplit_sentinel convId summary ts hcid hsumm
    simp [processChunk, h1, h2, hparse]
  · intro chunk h role content frameTs hmsg
    have := isControl_processChunk parseIso modelTs chunk
    rw [hmsg] at this
    simp [Frame.isControl, h] at this
  · intro chunk h
    simp [processChunk, h]
  · intro chunks
    induction chunks with
    | nil => rfl
    | cons c cs ih =>
      simp [List.countP_cons, ih, isControl_processChunk]

/-- Witness for C1: the spec's sample sentinel
`CONVERSATION_UPDATE:abc123:New summary:2024-01-01T00:00:00Z` yields the one
control frame with conversation id `abc123`, and a plain chunk yields a
plain message frame. -/
theorem sentinel_control_frame_emission_witness :
    processChunk parseIsoSample "tick"
        (SENTINEL_TAG ++ "abc123" ++ ":" ++ "New summary" ++ ":"
          ++ "2024-01-01T00:00:00Z")
      = Frame.control "abc123" "New summary" "2024-01-01T00:00:00Z"
    ∧ processChunk parseIsoSample "tick" "Here is your meme!"
      = Frame.message "model" "Here is your meme!" "tick" :=
  ⟨(sentinel_control_frame_emission parseIsoSample "tick").1 "abc123" "New summary"
      "2024-01-01T00:00:00Z" "2024-01-01T00:00:00Z" (by decide) (by decide)
      (by decide),
    (sentinel_control_frame_emission parseIsoSample "tick").2.2.1
      "Here is your meme!" (by decide)⟩

/-- Every event of a user echo followed by per-chunk frames is an emission. -/
theorem allEmit_echo_chunks (parseIso : String → Option String)
    (prompt userTs modelTs : String) (chunks : List String) :
    ((Event.emit (Frame.message "user" prompt userTs)
        :: chunks.map fun c => Event.emit (processChunk parseIso modelTs c)).all
      Event.isEmit) = true := by
  simp [List.all_cons, List.all_map, Event.isEmit, Function.comp, List.all_eq_true]

/-- Predicate truth on all elements is preserved by dropping the last element. -/
theorem all_dropLast {α : Type} (p : α → Bool) (l : List α) (h : l.all p = true) :
    l.dropLast.all p = true := by
  rw [List.all_eq_true] at *
  intro a ha
  exact h a ((List.dropLast_sublist l).subset ha)

/-- C2: `safe_db_operation(operation, session, max_retries=3)` returns the
success value when the operation raises a transient `OperationalError` on
its first two invocations and succeeds on the third; re-raises the transient
error after exactly 3 invocations when every invocation fails, sleeping
`0.5 * attempt_number` seconds (0.5 then 1.0) between attempts; and lets a
non-transient exception propagate immediately after a single invocation with
no retry and no sleep. -/
theorem safe_db_operation_retry_contract {α : Type} (v : α) (e : Nat → String)
    (op : Nat → DbOutcome α) :
    (op 0 = .transientErr (e 0) → op 1 = .transientErr (e 1) → op 2 = .ok v →
      safe_db_operation op 3 = ⟨some (.ok v), [1/2, 1], 3⟩)
    ∧ ((∀ n, op n = .transientErr (e n)) →
      safe_db_operation op 3 = ⟨some (.error (.transient (e 2))), [1/2, 1], 3⟩)
    ∧ (∀ msg, op 0 = .fatalErr msg →
      safe_db_operation op 3 = ⟨some (.error (.fatal msg)), [], 1⟩) := by
  refine ⟨?_, ?_, ?_⟩
  · intro h0 h1 h2
    simp [safe_db_operation, safeLoop, h0, h1, h2]
    norm_num
  · intro h
    simp [safe_db_operation, safeLoop, h 0, h 1, h 2]
    norm_num
  · intro msg h0
    simp [safe_db_operation, safeLoop, h0]

/-- Witness for C2: a concrete operation failing transiently twice then
succeeding, one always failing, and one failing fatally at once. -/
theorem safe_db_operation_retry_contract_witness :
    (fatigueOp 0 = .transientErr "db down" ∧ fatigueOp 1 = .transientErr "db down"
        ∧ fatigueOp 2 = .ok 42
        ∧ safe_db_operation fatigueOp 3 = ⟨some (.ok 42), [1/2, 1], 3⟩)
    ∧ ((∀ n, alwaysFailOp n = .transientErr "db down") ∧
        safe_db_operation alwaysFailOp 3
          = ⟨some (.error (.transient "db down")), [1/2, 1], 3⟩)
    ∧ (fatalOp 0 = .fatalErr "constraint violation" ∧
        safe_db_operation fatalOp 3
          = ⟨some (.error (.fatal "constraint violation")), [], 1⟩) :=
  ⟨⟨rfl, rfl, rfl,
      (safe_db_operation_retry_contract 42 (fun _ => "db down") fatigueOp).1 rfl rfl rfl⟩,
    ⟨fun _ => rfl,
      (safe_db_operation_retry_contract 42 (fun _ => "db down") alwaysFailOp).2.1
        fun _ => rfl⟩,
    ⟨rfl,
      (safe_db_operation_retry_contract 42 (fun _ => "db down") fatalOp).2.2
        "constraint violation" rfl⟩⟩

/-- C3: `summarize_old_messages` on a transcript of more than 15 turns
returns the summarizer's output over the first 10 turns followed by the last
5 turns; those last 5 turns (exactly 5 of them) are present verbatim as a
suffix of the assembled context; a transcript of 15 or fewer turns is
returned unchanged. -/
theorem summarize_old_messages_contract
    (S : List ModelMessage → List ModelMessage) (msgs : List ModelMessage) :
    (msgs.length > 15 →
      summarize_old_messages S msgs
          = S (msgs.take 10) ++ msgs.drop (msgs.length - 5)
        ∧ (msgs.drop (msgs.length - 5)).length = 5
        ∧ msgs.drop (msgs.length - 5) <:+ summarize_old_messages S msgs)
    ∧ (msgs.length ≤ 15 → summarize_old_messages S msgs = msgs) := by
  constructor
  · intro h
    have heq : summarize_old_messages S msgs
        = S (msgs.take 10) ++ msgs.drop (msgs.length - 5) := by
      simp [summarize_old_messages, h]
    refine ⟨heq, ?_, ?_⟩
    · rw [List.length_drop]
      omega
    · rw [heq]
      exact List.suffix_append _ _
  · intro h
    simp [summarize_old_messages]
    omega

/-- Witness for C3: the 16-turn sample transcript with the sample
summarizer. -/
theorem summarize_old_messages_contract_witness :
    sampleTranscript.length > 15 ∧
      (summarize_old_messages sampleSummarizer sampleTranscript
          = sampleSummarizer (sampleTranscript.take 10)
              ++ sampleTranscript.drop (sampleTranscript.length - 5)
        ∧ (sampleTranscript.drop (sampleTranscript.length - 5)).length = 5
        ∧ sampleTranscript.drop (sampleTranscript.length - 5) <:+
            summarize_old_messages sampleSummarizer sampleTranscript) :=
  ⟨by decide,
    (summarize_old_messages_contract sampleSummarizer sampleTranscript).1 (by decide)⟩

/-- C4 counterexample: in `chat_stream` the history handed to the model call
for a stored 16-message transcript is the untrimmed 16-message concatenation
and the number of trimming applications is 0, not 1 — history trimming is
not applied (let alone exactly once) before the first model call. -/
theorem chat_stream_history_trim_counterexample :
    (assembleStreamHistory [longRow]).history.length = 16
    ∧ 15 < (assembleStreamHistory [longRow]).history.length
    ∧ (assembleStreamHistory [longRow]).trimApplications = 0
    ∧ (assembleStreamHistory [longRow]).trimApplications ≠ 1 := by
  decide

/-- C4 (amended): history trimming is never applied in a run — the streamer
passes the untrimmed concatenation of the conversation's stored message
rows, in order and in full, to the model call, and `summarize_old_messages`
is invoked zero times (so a summarization failure cannot block the run). -/
theorem chat_stream_history_untrimmed (rows : List (List ModelMessage)) :
    (assembleStreamHistory rows).history = rows.flatten
    ∧ (assembleStreamHistory rows).history.length = (rows.map List.length).sum
    ∧ (assembleStreamHistory rows).trimApplications = 0 := by
  refine ⟨rfl, ?_, rfl⟩
  simp [assembleStreamHistory]

/-- C5: the completed transcript segment is persisted as the single final
event of a naturally completed run, strictly after every emitted frame and
never interleaved mid-stream (for every outcome, all events before the last
are frame emissions); on a client disconnect the run produces only frame
emissions — no persistence — and raises nothing. -/
theorem transcript_persistence_contract (parseIso : String → Option String)
    (prompt userTs modelTs : String) :
    (∀ chunks segment,
      (chat_stream parseIso prompt userTs modelTs (.completed chunks segment)).events
          = (Event.emit (Frame.message "user" prompt userTs)
              :: chunks.map fun c => Event.emit (processChunk parseIso modelTs c))
            ++ [Event.persist segment]
        ∧ ((Event.emit (Frame.message "user" prompt userTs)
              :: chunks.map fun c => Event.emit (processChunk parseIso modelTs c)).all
            Event.isEmit))
    ∧ (∀ delivered,
      (chat_stream parseIso prompt userTs modelTs (.disconnected delivered)).raised = false
        ∧ (chat_stream parseIso prompt userTs modelTs
            (.disconnected delivered)).events.all Event.isEmit)
    ∧ (∀ outcome : StreamOutcome,
      ((chat_stream parseIso prompt userTs modelTs outcome).events.dropLast).all
        Event.isEmit) := by
  refine ⟨?_, ?_, ?_⟩
  · intro chunks segment
    exact ⟨rfl, allEmit_echo_chunks parseIso prompt userTs modelTs chunks⟩
  · intro delivered
    exact ⟨rfl, allEmit_echo_chunks parseIso prompt userTs modelTs delivered⟩
  · intro outcome
    cases outcome with
    | completed chunks segment =>
      have h : (chat_stream parseIso prompt userTs modelTs
          (.completed chunks segment)).events
          = (Event.emit (Frame.message "user" prompt userTs)
              :: chunks.map fun c => Event.emit (processChunk parseIso modelTs c))
            ++ [Event.persist segment] := rfl
      rw [h, List.dropLast_concat]
      exact allEmit_echo_chunks parseIso prompt userTs modelTs chunks
    | disconnected delivered =>
      exact all_dropLast _ _ (allEmit_echo_chunks parseIso prompt userTs modelTs delivered)
    | failed delivered moderation =>
      have h : (chat_stream parseIso prompt userTs modelTs
          (.failed delivered moderation)).events
          = (Event.emit (Frame.message "user" prompt userTs)
              :: delivered.map fun c => Event.emit (processChunk parseIso modelTs c))
            ++ [Event.emit (Frame.message "model"
                  (if moderation then moderationMsg else genericErrorMsg) modelTs)] := rfl
      rw [h, List.dropLast_concat]
      exact allEmit_echo_chunks parseIso prompt userTs modelTs delivered

/-- C8 counterexample: the generate-captions tool returns a single
`MemeCaptionAndContext` — one `{text_boxes, context}` variant, not 3 — on a
concrete keyword list. -/
theorem generate_captions_three_variants_counterexample :
    (meme_theme_factory sampleCaptionAgent ["cats"] "").variantCount = 1
    ∧ (meme_theme_factory sampleCaptionAgent ["cats"] "").variantCount ≠ 3 := by
  decide

/-- C8 (amended): for every list of keywords and optional visual context,
the generate-captions tool runs the caption agent once on the prompt
`"Themes: <keywords>; Context: <context>"` and returns exactly one caption
variant, a single `{text_boxes, context}` pair. -/
theorem generate_captions_single_variant
    (agentRun : String → MemeCaptionAndContext) (keywords : List String)
    (image_context : String) :
    meme_theme_factory agentRun keywords image_context
        = agentRun ("Themes: " ++ String.intercalate ", " keywords
            ++ "; Context: " ++ image_context)
    ∧ (meme_theme_factory agentRun keywords image_context).variantCount = 1 :=
  ⟨rfl, rfl⟩

/-- C10: every streaming run's event sequence begins with a message frame
echoing the caller's prompt with role "user" and the run's start timestamp,
emitted before any model-output message frame or control frame, whatever the
outcome of the run. -/
theorem stream_first_frame_user_echo (parseIso : String → Option String)
    (prompt userTs modelTs : String) (outcome : StreamOutcome) :
    (chat_stream parseIso prompt userTs modelTs outcome).events.head?
      = some (Event.emit (Frame.message "user" prompt userTs)) := by
  cases outcome <;> rfl

/-- The newest-meme selection only ever returns the seed or a list member. -/
theorem pickLatest_eq_or_mem (l : List UserMeme) (acc : Option UserMeme)
    (b : UserMeme) (h : pickLatest acc l = some b) : acc = some b ∨ b ∈ l := by
  induction l generalizing acc with
  | nil => exact Or.inl h
  | cons m rest ih =>
    have h' : pickLatest (latestStep acc m) rest = some b := h
    rcases ih _ h' with hacc | hmem
    · cases acc with
      | none =>
        simp only [latestStep, Option.some.injEq] at hacc
        exact Or.inr (by simp [hacc])
      | some x =>
        by_cases hlt : x.created_at < m.created_at
        · simp only [latestStep, hlt, if_true, Option.some.injEq] at hacc
          exact Or.inr (by simp [hacc])
        · simp only [latestStep, hlt, if_false, Option.some.injEq] at hacc
          exact Or.inl (by simp [hacc])
    · exact Or.inr (List.mem_cons_of_mem _ hmem)

/-- Appending a strictly newer meme makes it the selected one. -/
theorem pickLatest_append_fresh (l : List UserMeme) (m : UserMeme)
    (acc : Option UserMeme)
    (hl : ∀ x ∈ l, x.created_at < m.created_at)
    (hacc : ∀ x, acc = some x → x.created_at < m.created_at) :
    pickLatest acc (l ++ [m]) = some m := by
  induction l generalizing acc with
  | nil =>
    cases acc with
    | none => rfl
    | some x =>
      have hx := hacc x rfl
      simp [pickLatest, latestStep, hx]
  | cons y rest ih =>
    have hy : y.created_at < m.created_at := hl y (by simp)
    have hrest : ∀ x ∈ rest, x.created_at < m.created_at :=
      fun x hx => hl x (List.mem_cons_of_mem _ hx)
    apply ih _ hrest
    intro x hx
    cases acc with
    | none =>
      simp only [latestStep, Option.some.injEq] at hx
      exact hx ▸ hy
    | some z =>
      have hz := hacc z rfl
      by_cases hlt : z.created_at < y.created_at
      · simp only [latestStep, hlt, if_true, Option.some.injEq] at hx
        exact hx ▸ hy
      · simp only [latestStep, hlt, if_false, Option.some.injEq] at hx
        exact hx ▸ hz

/-- A selected newest meme belongs to the conversation's rows and matches
the conversation and user. -/
theorem read_latest_mem (db : List UserMeme) (conv user : String)
    (m : UserMeme) (h : read_latest_conversation_meme db conv user = some m) :
    m ∈ db ∧ memeMatches conv user m = true := by
  unfold read_latest_conversation_meme at h
  rcases pickLatest_eq_or_mem _ _ _ h with h' | h'
  · exact absurd h' (by simp)
  · exact ⟨(List.mem_filter.mp h').1, (List.mem_filter.mp h').2⟩

/-- Appending a matching meme strictly newer than every matching row makes
it the conversation's newest meme. -/
theorem read_latest_append_fresh (db : List UserMeme) (m : UserMeme)
    (conv user : String) (hm : memeMatches conv user m = true)
    (hfresh : ∀ x ∈ db, memeMatches conv user x = true →
      x.created_at < m.created_at) :
    read_latest_conversation_meme (db ++ [m]) conv user = some m := by
  unfold read_latest_conversation_meme
  rw [List.filter_append]
  have hone : List.filter (memeMatches conv user) [m] = [m] := by
    simp [List.filter, hm]
  rw [hone]
  apply pickLatest_append_fresh
  · intro x hx
    have := List.mem_filter.mp hx
    exact hfresh x this.1 this.2
  · intro x hx
    exact absurd hx (by simp)

/-- C6: after a successful render call on a conversation (image uploaded to
`url`, provider response id `rid`, created strictly later than every
existing meme of the conversation), the stored table gains exactly the new
meme carrying `rid`, the render result carries `rid`, and immediately
fetching the last image handle returns exactly that `rid`, unchanged; on a
conversation with no memes the fetch instead returns the distinguishable
"no previous meme" error rather than a handle. -/
theorem render_then_fetch_roundtrip (db : List UserMeme)
    (conv user url rid fid : String) (now : Nat)
    (hurl : url ≠ "") (hrid : rid ≠ "")
    (hfresh : ∀ x ∈ db, memeMatches conv user x = true → x.created_at < now) :
    generate_image_openai db (.ok rid true) url conv user fid now
        = .ok (db ++ [⟨fid, conv, user, url, rid, false, now⟩],
            ⟨fid, url, rid⟩)
    ∧ fetch_previous_image_id (db ++ [⟨fid, conv, user, url, rid, false, now⟩])
        conv user = .ok rid
    ∧ (read_latest_conversation_meme db conv user = none →
        fetch_previous_image_id db conv user
          = .error (.modelRetry "No previous meme found in this conversation.")) := by
  refine ⟨?_, ?_, ?_⟩
  · simp [generate_image_openai, create_user_meme, hurl]
  · have hlatest : read_latest_conversation_meme
        (db ++ [⟨fid, conv, user, url, rid, false, now⟩]) conv user
        = some ⟨fid, conv, user, url, rid, false, now⟩ := by
      apply read_latest_append_fresh
      · simp [memeMatches]
      · exact hfresh
    unfold fetch_previous_image_id
    rw [hlatest]
    simp [hrid]
  · intro h
    simp [fetch_previous_image_id, h]

/-- Witness for C6: rendering into an empty conversation then fetching
returns the render's handle, and fetching on the empty conversation returns
the "no previous meme" error. -/
theorem render_then_fetch_roundtrip_witness :
    ("urlA" : String) ≠ "" ∧ ("resp_1" : String) ≠ ""
    ∧ (∀ x ∈ emptyMemeDb, memeMatches "c1" "u1" x = true → x.created_at < 1)
    ∧ (generate_image_openai emptyMemeDb (.ok "resp_1" true) "urlA" "c1" "u1" "m1" 1
          = .ok (emptyMemeDb ++ [⟨"m1", "c1", "u1", "urlA", "resp_1", false, 1⟩],
              ⟨"m1", "urlA", "resp_1"⟩)
        ∧ fetch_previous_image_id
            (emptyMemeDb ++ [⟨"m1", "c1", "u1", "urlA", "resp_1", false, 1⟩])
            "c1" "u1" = .ok "resp_1"
        ∧ (read_latest_conversation_meme emptyMemeDb "c1" "u1" = none →
            fetch_previous_image_id emptyMemeDb "c1" "u1"
              = .error (.modelRetry "No previous meme found in this conversation."))) :=
  ⟨by decide, by decide, by decide,
    render_then_fetch_roundtrip emptyMemeDb "c1" "u1" "urlA" "resp_1" "m1" 1
      (by decide) (by decide) (by decide)⟩

/-- A per-id rewrite leaves rows with different ids untouched. -/
theorem map_untouched (l : List UserMeme) (i : String) (f : UserMeme → UserMeme)
    (h : ∀ x ∈ l, x.id ≠ i) :
    l.map (fun x => if x.id = i then f x else x) = l := by
  induction l with
  | nil => rfl
  | cons y rest ih =>
    have hy : y.id ≠ i := h y (by simp)
    have hrest : ∀ x ∈ rest, x.id ≠ i := fun x hx => h x (List.mem_cons_of_mem _ hx)
    simp [hy, ih hrest]

/-- With unique row ids, updating the first row matched by a member's id and
owner rewrites exactly that row and leaves every other row unchanged. -/
theorem updateFirstMeme_eq_map (db : List UserMeme) (m : UserMeme)
    (user : String) (u : UserMemeUpdate) (hmem : m ∈ db)
    (huser : m.user_id = user) (hnodup : (db.map UserMeme.id).Nodup) :
    updateFirstMeme m.id user u db
      = some (db.map (fun x => if x.id = m.id then applyMemeUpdate u x else x),
          applyMemeUpdate u m) := by
  induction db with
  | nil => cases hmem
  | cons y rest ih =>
    rw [List.map_cons, List.nodup_cons] at hnodup
    rcases List.mem_cons.mp hmem with heq | hmem'
    · subst heq
      have hrest : ∀ x ∈ rest, x.id ≠ m.id := by
        intro x hx he
        exact hnodup.1 (by rw [← he]; exact List.mem_map_of_mem UserMeme.id hx)
      simp [updateFirstMeme, huser, map_untouched rest m.id _ hrest]
    · have hy : y.id ≠ m.id := by
        intro he
        exact hnodup.1 (he ▸ List.mem_map_of_mem UserMeme.id hmem')
      simp [updateFirstMeme, hy, ih hmem' hnodup.2]

/-- Filtering commutes with a row map that preserves the filter. -/
theorem filter_map_comm (l : List UserMeme) (p : UserMeme → Bool)
    (g : UserMeme → UserMeme) (h : ∀ x, p (g x) = p x) :
    (l.map g).filter p = (l.filter p).map g := by
  induction l with
  | nil => rfl
  | cons y rest ih =>
    cases hy : p y with
    | false => simp [List.filter_cons, h y, hy, ih]
    | true => simp [List.filter_cons, h y, hy, ih]

/-- The newest-row selection commutes with a row map that preserves
creation times. -/
theorem pickLatest_map (l : List UserMeme) (acc : Option UserMeme)
    (g : UserMeme → UserMeme) (hg : ∀ x, (g x).created_at = x.created_at) :
    pickLatest (acc.map g) (l.map g) = (pickLatest acc l).map g := by
  induction l generalizing acc with
  | nil => rfl
  | cons y rest ih =>
    have hstep : latestStep (acc.map g) (g y) = (latestStep acc y).map g := by
      cases acc with
      | none => rfl
      | some b =>
        simp only [Option.map_some', latestStep, hg]
        by_cases hlt : b.created_at < y.created_at <;> simp [hlt]
    have h1 : pickLatest (acc.map g) ((y :: rest).map g)
        = pickLatest (latestStep (acc.map g) (g y)) (rest.map g) := rfl
    rw [h1, hstep]
    exact ih (latestStep acc y)

/-- Reading the newest conversation meme commutes with a row map preserving
creation times and conversation/user ownership. -/
theorem read_latest_map (db : List UserMeme) (conv user : String)
    (g : UserMeme → UserMeme) (hg : ∀ x, (g x).created_at = x.created_at)
    (hmatch : ∀ x, memeMatches conv user (g x) = memeMatches conv user x) :
    read_latest_conversation_meme (db.map g) conv user
      = (read_latest_conversation_meme db conv user).map g := by
  unfold read_latest_conversation_meme
  rw [filter_map_comm _ _ _ hmatch]
  have h := pickLatest_map (db.filter (memeMatches conv user)) none g hg
  simpa using h

/-- C9: marking the conversation's most recent meme as favorite rewrites
exactly that row to `is_favorite := true`, leaving every other row of the
table byte-identical; the rewrite touches no field but `is_favorite` (id,
conversation, owner, image URL, provider handle and creation time are
preserved); and fetching the last image handle returns the same result
before and after, so favoriting never disturbs the most-recent-handle
invariant. -/
theorem favourite_frame_effect (db : List UserMeme) (conv user : String)
    (m : UserMeme)
    (hm : read_latest_conversation_meme db conv user = some m)
    (hid : m.openai_response_id ≠ "")
    (hnodup : (db.map UserMeme.id).Nodup) :
    favourite_meme_in_db db conv user
        = .ok (db.map fun x =>
              if x.id = m.id then { x with is_favorite := true } else x,
            "Marked meme " ++ m.id ++ " as favourite.")
    ∧ (∀ x : UserMeme,
        ({ x with is_favorite := true } : UserMeme).id = x.id
        ∧ ({ x with is_favorite := true } : UserMeme).conversation_id = x.conversation_id
        ∧ ({ x with is_favorite := true } : UserMeme).user_id = x.user_id
        ∧ ({ x with is_favorite := true } : UserMeme).image_url = x.image_url
        ∧ ({ x with is_favorite := true } : UserMeme).openai_response_id = x.openai_response_id
        ∧ ({ x with is_favorite := true } : UserMeme).created_at = x.created_at)
    ∧ fetch_previous_image_id
        (db.map fun x => if x.id = m.id then { x with is_favorite := true } else x)
        conv user
      = fetch_previous_image_id db conv user := by
  obtain ⟨hmem, hmatch⟩ := read_latest_mem db conv user m hm
  have huser : m.user_id = user := by
    simp only [memeMatches, Bool.and_eq_true, beq_iff_eq] at hmatch
    exact hmatch.2
  refine ⟨?_, ?_, ?_⟩
  · have hupd := updateFirstMeme_eq_map db m user ⟨some true⟩ hmem huser hnodup
    simp only [favourite_meme_in_db, hm, if_neg hid, update_user_meme, hupd]
    rfl
  · intro x
    exact ⟨rfl, rfl, rfl, rfl, rfl, rfl⟩
  · have hg : ∀ x : UserMeme,
        ((if x.id = m.id then { x with is_favorite := true } else x) : UserMeme).created_at
          = x.created_at := by
      intro x
      by_cases h : x.id = m.id <;> simp [h]
    have hmatch' : ∀ x : UserMeme,
        memeMatches conv user (if x.id = m.id then { x with is_favorite := true } else x)
          = memeMatches conv user x := by
      intro x
      by_cases h : x.id = m.id <;> simp [h, memeMatches]
    have hrl := read_latest_map db conv user
      (fun x => if x.id = m.id then { x with is_favorite := true } else x) hg hmatch'
    unfold fetch_previous_image_id
    rw [hrl, hm]
    simp [hid]

/-- Witness for C9: favoriting the newest of two memes flips only its
favorite flag and leaves the fetched handle unchanged. -/
theorem favourite_frame_effect_witness :
    read_latest_conversation_meme staleDb "c1" "u1"
        = some ⟨"m2", "c1", "u1", "urlB", "resp_new", false, 2⟩
    ∧ favourite_meme_in_db staleDb "c1" "u1"
        = .ok (staleDb.map fun x =>
              if x.id = "m2" then { x with is_favorite := true } else x,
            "Marked meme " ++ "m2" ++ " as favourite.")
    ∧ fetch_previous_image_id
        (staleDb.map fun x =>
          if x.id = "m2" then { x with is_favorite := true } else x)
        "c1" "u1"
      = fetch_previous_image_id staleDb "c1" "u1" :=
  ⟨by decide,
    (favourite_frame_effect staleDb "c1" "u1"
        ⟨"m2", "c1", "u1", "urlB", "resp_new", false, 2⟩
        (by decide) (by decide) (by decide)).1,
    (favourite_frame_effect staleDb "c1" "u1"
        ⟨"m2", "c1", "u1", "urlB", "resp_new", false, 2⟩
        (by decide) (by decide) (by decide)).2.2⟩

/-- C7 counterexample: on a conversation whose most recent meme has handle
`resp_new`, invoking modify-image through the OpenAI path with the stale
handle `resp_old` does not fail with a stale-reference error — it succeeds
and persists a new meme, because `_modify_image_openai` performs no
staleness check. -/
theorem modify_image_stale_handle_counterexample :
    (read_latest_conversation_meme staleDb "c1" "u1").map UserMeme.openai_response_id
        = some "resp_new"
    ∧ ("resp_old" : String) ≠ "resp_new"
    ∧ modify_image "openai" staleDb "resp_old" sampleModifyEnv "c1" "u1"
        = .ok (staleDb ++ [⟨"m3", "c1", "u1", "urlC", "resp_v3", false, 3⟩],
            ⟨"m3", "urlC", "resp_v3"⟩) :=
  ⟨by decide, by decide, by rfl⟩

/-- C7 (amended): only the Gemini modification path checks staleness — for
every conversation with no prior meme, or whose supplied handle differs from
the most recent meme's stored handle, invoking modify-image through the
Gemini path fails with the stale-reference `ModelRetry` ("Could not find
previous image with response_id: ..."), not a generic exception; the OpenAI
path performs no such check and passes the handle straight to the provider. -/
theorem modify_image_gemini_stale_reference (db : List UserMeme)
    (rid : String) (env : ModifyCallEnv) (conv user : String) :
    (read_latest_conversation_meme db conv user = none →
      modify_image "gemini" db rid env conv user
        = .error (.modelRetry (staleMsg rid)))
    ∧ (∀ latest, read_latest_conversation_meme db conv user = some latest →
        latest.openai_response_id ≠ rid →
        modify_image "gemini" db rid env conv user
          = .error (.modelRetry (staleMsg rid))) := by
  have hroute : modify_image "gemini" db rid env conv user
      = modify_image_gemini db rid env.gresp env.upload_url env.gemini_fresh_id
          conv user env.fresh_id env.now := by
    unfold modify_image
    rw [if_neg (by decide), if_pos rfl]
  constructor
  · intro h
    rw [hroute]
    unfold modify_image_gemini
    rw [h]
  · intro latest hl hne
    rw [hroute]
    unfold modify_image_gemini
    rw [hl]
    simp [hne]

/-- Witness for C7's amended claim: the Gemini path raises the
stale-reference error both on an empty conversation and on a conversation
whose newest handle differs from the supplied one. -/
theorem modify_image_gemini_stale_reference_witness :
    (read_latest_conversation_meme emptyMemeDb "c1" "u1" = none
      ∧ modify_image "gemini" emptyMemeDb "resp_x" sampleModifyEnv "c1" "u1"
        = .error (.modelRetry (staleMsg "resp_x")))
    ∧ (read_latest_conversation_meme staleDb "c1" "u1"
          = some ⟨"m2", "c1", "u1", "urlB", "resp_new", false, 2⟩
        ∧ modify_image "gemini" staleDb "resp_old" sampleModifyEnv "c1" "u1"
          = .error (.modelRetry (staleMsg "resp_old"))) :=
  ⟨⟨by decide,
      (modify_image_gemini_stale_reference emptyMemeDb "resp_x" sampleModifyEnv
          "c1" "u1").1 (by decide)⟩,
    ⟨by decide,
      (modify_image_gemini_stale_reference staleDb "resp_old" sampleModifyEnv
          "c1" "u1").2 ⟨"m2", "c1", "u1", "urlB", "resp_new", false, 2⟩
        (by decide) (by decide)⟩⟩

end MemeGen
